import Mathlib

/-!
# Andromeda renderer: per-frame orchestration and the basic pass

A shallow embedding of `src/renderer/renderer.cpp` (`Renderer::render`) and
`src/renderer/basic/basic_renderer.cpp` (`BasicRenderer::render_frame`,
`update_transforms`, `update_camera_data`, `get_descriptors`,
`create_pipeline`).

Conventions.
* Floating point values (`float`, `glm::vec3`, `glm::mat4`) are carried by type
  parameters `F`, `V`, `M`; the glm operations are fields of `Glm`.
* A command buffer is the list of calls made on it, oldest first.
* `uint32_t` arithmetic is reduced modulo `2^32` (`u32`).
* The `for` loop of the pass callback is driven by a fuel counter, one unit per
  evaluation of the loop condition; the result carries a flag telling whether
  the callback returned.
-/

namespace Andromeda

/-! ## Data model -/

/-- `Handle<T>`: an asset handle, identified by its numeric id. -/
structure Handle where
  id : Nat
deriving DecidableEq, Repr

/-- The part of `Mesh` the basic pass reads through `assets::get`:
`get_vertices()`, `get_indices()` (buffer identifiers) and `index_count()`. -/
structure Mesh where
  vertices : Nat
  indices : Nat
  index_count : Nat
deriving DecidableEq, Repr

/-- `renderer::Draw{ .mesh, .material, .transform }`. -/
structure Draw (M : Type) where
  mesh : Handle
  material : Handle
  transform : M
deriving DecidableEq, Repr

/-- One entry of `RenderDatabase::point_lights`. -/
structure PointLightData (F V : Type) where
  position : V
  radius : F
  color : V
  intensity : F
deriving DecidableEq, Repr

/-- `RenderDatabase`: the per-frame snapshot read by the passes. -/
structure RenderDatabase (F V M : Type) where
  projection : M
  view : M
  projection_view : M
  camera_position : V
  environment_map : Handle
  materials : List Handle
  draws : List (Draw M)
  transforms : List M
  point_lights : List (PointLightData F V)
deriving DecidableEq, Repr

/-! ## The basic pass (`basic_renderer.cpp`) -/

/-- `uint32_t` wrap-around. -/
def u32 (n : Nat) : Nat := n % 2 ^ 32

/-- `sizeof(glm::mat4)`: sixteen 4-byte floats. -/
def sizeof_mat4 : Nat := 64

/-- `sizeof(glm::vec4)`. -/
def sizeof_vec4 : Nat := 16

/-- `sizeof(uint32_t)`. -/
def sizeof_uint32 : Nat := 4

/-- `ph::BufferSlice` as the callback uses it: the byte size asked from the
scratch allocator and the matrices copied into it by `std::memcpy`. -/
structure BufferSlice (M : Type) where
  size : Nat
  data : List M
deriving DecidableEq, Repr

/-- `BasicRenderer::PerFrameBuffers`. -/
structure PerFrameBuffers (M : Type) where
  camera : BufferSlice M
  transforms : BufferSlice M
deriving DecidableEq, Repr

/-- `BasicRenderer::Bindings`: binding points found by shader reflection in
`create_pipeline`. -/
structure Bindings where
  camera : Nat
  transforms : Nat
deriving DecidableEq, Repr

/-- `ph::DescriptorSetBinding`: the descriptors added, in order, each a binding
point with the buffer slice bound there. -/
abbrev DescriptorSetBinding (M : Type) := List (Nat × BufferSlice M)

/-- `vk::ShaderStageFlagBits`, the stages named in the source. -/
inductive ShaderStage where
  | eVertex
  | eFragment
deriving DecidableEq, Repr

/-- The calls `render_frame` makes on the command buffer inside the pass
callback. -/
inductive Cmd (M : Type) where
  | auto_viewport_scissor
  | get_pipeline (name : String)
  | bind_pipeline (name : String)
  | allocate_scratch_ssbo (size : Nat)
  | allocate_scratch_ubo (size : Nat)
  | get_descriptor (set : DescriptorSetBinding M)
  | bind_descriptor_set (first_set : Nat) (set : DescriptorSetBinding M)
  | bind_vertex_buffer (first_binding : Nat) (buffer : Nat)
  | bind_index_buffer (buffer : Nat)
  | push_constants (stage : ShaderStage) (offset size value : Nat)
  | draw_indexed (index_count instance_count first_index vertex_offset first_instance : Nat)
deriving DecidableEq, Repr

/-- `ph::CommandBuffer`: the calls recorded so far, oldest first. -/
abbrev CommandBuffer (M : Type) := List (Cmd M)

/-- State threaded through the pass callback: the command buffer,
`per_frame_buffers`, and whether the callback has returned. -/
structure CallbackState (M : Type) where
  cmd_buf : CommandBuffer M
  per_frame_buffers : PerFrameBuffers M
  returned : Bool
deriving DecidableEq, Repr

section BasicPass

variable {F V M : Type}

/-- `BasicRenderer::update_transforms`: allocate
`transforms.size() * sizeof(glm::mat4)` bytes of scratch storage buffer and copy
the transforms into it.  A `std::vector<glm::mat4>` holds fewer than
`2^64 / 64` elements, so the `size_t` product is exact. -/
def update_transforms (cmd_buf : CommandBuffer M) (pfb : PerFrameBuffers M)
    (database : RenderDatabase F V M) : CommandBuffer M × PerFrameBuffers M :=
  let size := database.transforms.length * sizeof_mat4
  (cmd_buf ++ [Cmd.allocate_scratch_ssbo size],
   { pfb with transforms := { size := size, data := database.transforms } })

/-- `BasicRenderer::update_camera_data`: allocate a scratch uniform buffer for
a mat4 and a vec4 and copy `projection_view` into it (the camera position copy
is commented out in the source). -/
def update_camera_data (cmd_buf : CommandBuffer M) (pfb : PerFrameBuffers M)
    (database : RenderDatabase F V M) : CommandBuffer M × PerFrameBuffers M :=
  let size := sizeof_mat4 + sizeof_vec4
  (cmd_buf ++ [Cmd.allocate_scratch_ubo size],
   { pfb with camera := { size := size, data := [database.projection_view] } })

/-- `BasicRenderer::get_descriptors`: a set with the camera and the transforms
descriptors, fetched through `cmd_buf.get_descriptor`. -/
def get_descriptors (bindings : Bindings) (cmd_buf : CommandBuffer M)
    (pfb : PerFrameBuffers M) : CommandBuffer M × DescriptorSetBinding M :=
  let set : DescriptorSetBinding M :=
    [(bindings.camera, pfb.camera), (bindings.transforms, pfb.transforms)]
  (cmd_buf ++ [Cmd.get_descriptor set], set)

/-- The four calls recorded for the draw at index `draw_idx` once its mesh is
ready (body of the `for` loop after the readiness test). -/
def record_draw (mesh : Mesh) (draw_idx : Nat) : List (Cmd M) :=
  [Cmd.bind_vertex_buffer 0 mesh.vertices,
   Cmd.bind_index_buffer mesh.indices,
   Cmd.push_constants ShaderStage.eVertex 0 sizeof_uint32 draw_idx,
   Cmd.draw_indexed mesh.index_count 1 0 0 0]

/-- The loop `for (uint32_t draw_idx = 0; draw_idx < draws.size(); ++draw_idx)`
of the pass callback, started at `draw_idx`.  `fuel` bounds the number of times
the loop condition is evaluated; the flag of the result tells whether the loop
ended (condition false) within that bound. -/
def draw_loop (is_ready : Handle → Bool) (assets_get : Handle → Mesh)
    (draws : List (Draw M)) : Nat → Nat → CommandBuffer M → CommandBuffer M × Bool
  | 0, _, cmd_buf => (cmd_buf, false)
  | fuel + 1, draw_idx, cmd_buf =>
    if h : draw_idx < draws.length then
      let draw := draws[draw_idx]
      if !is_ready draw.mesh then
        draw_loop is_ready assets_get draws fuel (u32 (draw_idx + 1)) cmd_buf
      else
        let mesh := assets_get draw.mesh
        let transform_index := draw_idx
        draw_loop is_ready assets_get draws fuel (u32 (draw_idx + 1))
          (cmd_buf ++ record_draw mesh transform_index)
    else (cmd_buf, true)

/-- The callback installed by `BasicRenderer::render_frame`
(`pass.callback = [this, &frame, &ctx](ph::CommandBuffer& cmd_buf) ...`), run on
an empty command buffer with `per_frame_buffers` as `render_frame` left it. -/
def render_frame_callback (is_ready : Handle → Bool) (assets_get : Handle → Mesh)
    (bindings : Bindings) (pfb : PerFrameBuffers M) (database : RenderDatabase F V M)
    (fuel : Nat) : CallbackState M :=
  let cmd_buf : CommandBuffer M := [Cmd.auto_viewport_scissor]
  if database.draws.isEmpty then
    { cmd_buf := cmd_buf, per_frame_buffers := pfb, returned := true }
  else
    let cmd_buf := cmd_buf ++ [Cmd.get_pipeline "basic_pipeline"]
    let cmd_buf := cmd_buf ++ [Cmd.bind_pipeline "basic_pipeline"]
    let (cmd_buf, pfb) := update_transforms cmd_buf pfb database
    let (cmd_buf, pfb) := update_camera_data cmd_buf pfb database
    let (cmd_buf, descr_set) := get_descriptors bindings cmd_buf pfb
    let cmd_buf := cmd_buf ++ [Cmd.bind_descriptor_set 0 descr_set]
    let (cmd_buf, done) := draw_loop is_ready assets_get database.draws fuel 0 cmd_buf
    { cmd_buf := cmd_buf, per_frame_buffers := pfb, returned := done }

/-- What `render_frame` sets `per_frame_buffers` to before building the pass
(`per_frame_buffers = {}`). -/
def PerFrameBuffers.empty : PerFrameBuffers M :=
  { camera := { size := 0, data := [] }, transforms := { size := 0, data := [] } }

/-- What the callback records before the loop when the draw list is not empty. -/
def callback_prologue (bindings : Bindings) (database : RenderDatabase F V M) :
    List (Cmd M) :=
  let transforms : BufferSlice M :=
    { size := database.transforms.length * sizeof_mat4, data := database.transforms }
  let camera : BufferSlice M :=
    { size := sizeof_mat4 + sizeof_vec4, data := [database.projection_view] }
  let set : DescriptorSetBinding M :=
    [(bindings.camera, camera), (bindings.transforms, transforms)]
  [Cmd.auto_viewport_scissor,
   Cmd.get_pipeline "basic_pipeline",
   Cmd.bind_pipeline "basic_pipeline",
   Cmd.allocate_scratch_ssbo (database.transforms.length * sizeof_mat4),
   Cmd.allocate_scratch_ubo (sizeof_mat4 + sizeof_vec4),
   Cmd.get_descriptor set,
   Cmd.bind_descriptor_set 0 set]

/-- The draws whose mesh is ready, each with its index in the draw list, in
increasing index order. -/
def ready_draws (is_ready : Handle → Bool) (draws : List (Draw M)) :
    List (Nat × Draw M) :=
  draws.enum.filter (fun p => is_ready p.2.mesh)

/-- Number of `draw_indexed` calls in a command buffer. -/
def draw_calls (cmds : List (Cmd M)) : Nat :=
  cmds.countP (fun c => match c with
    | Cmd.draw_indexed _ _ _ _ _ => true
    | _ => false)

/-- The values of the `push_constants` calls of a command buffer, in recording
order: entry `N` is the index bound for the `N`-th draw call. -/
def push_constant_values (cmds : List (Cmd M)) : List Nat :=
  cmds.filterMap (fun c => match c with
    | Cmd.push_constants _ _ _ value => some value
    | _ => none)

/-- Calls that belong to one draw: buffer binds, push constant, draw call. -/
def is_per_draw : Cmd M → Bool
  | Cmd.bind_vertex_buffer _ _ => true
  | Cmd.bind_index_buffer _ => true
  | Cmd.push_constants _ _ _ _ => true
  | Cmd.draw_indexed _ _ _ _ _ => true
  | _ => false

/-- Scratch storage buffer allocations. -/
def is_ssbo_allocation : Cmd M → Bool
  | Cmd.allocate_scratch_ssbo _ => true
  | _ => false

end BasicPass

/-! ## The frame orchestrator (`renderer.cpp`) -/

/-- `components::Transform`. -/
structure Transform (V : Type) where
  position : V
  rotation : V
  scale : V
deriving DecidableEq, Repr

/-- `components::Camera`, the fields `Renderer::render` reads. -/
structure Camera (F V : Type) where
  fov : F
  front : V
  up : V
  env_map : Handle
deriving DecidableEq, Repr

/-- `components::MeshRenderer`. -/
structure MeshRenderer where
  material : Handle
deriving DecidableEq, Repr

/-- `components::StaticMesh`. -/
structure StaticMesh where
  mesh : Handle
deriving DecidableEq, Repr

/-- `components::PointLight`. -/
structure PointLight (F V : Type) where
  radius : F
  color : V
  intensity : F
deriving DecidableEq, Repr

/-- An entity of the world: each component kind is present or absent. -/
structure Entity (F V : Type) where
  transform : Option (Transform V)
  camera : Option (Camera F V)
  mesh_renderer : Option MeshRenderer
  static_mesh : Option StaticMesh
  point_light : Option (PointLight F V)
deriving DecidableEq, Repr

/-- The glm calls and float literals of `Renderer::render`; floating point
arithmetic is not interpreted. -/
structure Glm (F V M : Type) where
  perspective : F → F → F → F → M
  lookAt : V → V → V → M
  mat_mul : M → M → M
  negate_11 : M → M
  vec_add : V → V → V
  identity : M
  translate : M → V → M
  rotate : M → V → M
  scale : M → V → M
  radians_vec : V → V
  ratio : Nat → Nat → F
  near : F
  far : F
  zero : V

/-- What `Renderer::render` reads from the asset subsystem. -/
structure Assets where
  none_id : Nat
  env_map_ready : Handle → Bool
  loaded_materials : List Nat

/-- Attachments named in `Renderer::render`: the two colour attachments the
renderer registers and the ones it fetches from the passes. -/
inductive Attachment where
  | scene_color
  | scene_color_tonemapped
  | geometry_depth
  | geometry_albedo_ao
  | geometry_metallic_roughness
  | geometry_normal
  | lighting_resolved_depth
deriving DecidableEq, Repr

/-- Width of `scene_color` (`add_color_attachment("scene_color", { 1280, 720 }, ...)`). -/
def scene_color_width : Nat := 1280

/-- Height of `scene_color`. -/
def scene_color_height : Nat := 720

/-- Argument of `LightingPass::build`. -/
structure LightingAttachments where
  output : Attachment
  depth : Attachment
  albedo_ao : Attachment
  metallic_roughness : Attachment
  normal : Attachment
deriving DecidableEq, Repr

/-- Argument of `SkyboxPass::build`. -/
structure SkyboxAttachments where
  output : Attachment
  depth : Attachment
deriving DecidableEq, Repr

/-- Argument of `TonemapPass::build`. -/
structure TonemapAttachments where
  input_hdr : Attachment
  output_ldr : Attachment
deriving DecidableEq, Repr

/-- The calls `Renderer::render` makes, in the order it makes them.  A pass
build carries the attachments and the database it is handed. -/
inductive Event (F V M : Type) where
  | wait_for_available_frame
  | get_frame_info
  | database_reset
  | database_set_camera
  | add_material (material : Handle)
  | add_draw (draw : Draw M)
  | add_point_light (light : PointLightData F V)
  | geometry_build (database : RenderDatabase F V M)
  | lighting_build (attachments : LightingAttachments) (database : RenderDatabase F V M)
  | skybox_build (attachments : SkyboxAttachments) (database : RenderDatabase F V M)
  | tonemap_build (attachments : TonemapAttachments) (database : RenderDatabase F V M)
  | imgui_render
  | imgui_render_draw_data
  | graph_build
  | render_frame
  | present_frame
deriving DecidableEq, Repr

/-- State of one `Renderer::render` call: the database member and the calls
made so far, oldest first. -/
structure RenderState (F V M : Type) where
  database : RenderDatabase F V M
  log : List (Event F V M)
deriving DecidableEq, Repr

section Orchestrator

variable {F V M : Type}

/-- Modelled from the spec: `RenderDatabase::reset` (render_database.cpp is not
among the sources).  The database is rebuilt from scratch every frame: camera
fields go back to identity and zero, the environment map to the "none" handle,
and every sequence is emptied. -/
def RenderDatabase.reset (glm : Glm F V M) (assets : Assets)
    (_database : RenderDatabase F V M) : RenderDatabase F V M :=
  { projection := glm.identity, view := glm.identity, projection_view := glm.identity,
    camera_position := glm.zero, environment_map := { id := assets.none_id },
    materials := [], draws := [], transforms := [], point_lights := [] }

/-- Modelled from the spec: `RenderDatabase::add_material` (not among the
sources) adds a handle to the material set. -/
def RenderDatabase.add_material (database : RenderDatabase F V M) (material : Handle) :
    RenderDatabase F V M :=
  { database with materials := database.materials ++ [material] }

/-- Modelled from the spec: `RenderDatabase::add_draw` (not among the sources)
appends the draw to `draws` and its model matrix to `transforms`, which keeps
the two sequences index-aligned. -/
def RenderDatabase.add_draw (database : RenderDatabase F V M) (draw : Draw M) :
    RenderDatabase F V M :=
  { database with draws := database.draws ++ [draw],
                  transforms := database.transforms ++ [draw.transform] }

/-- Modelled from the spec: `RenderDatabase::add_point_light` (not among the
sources) appends `{position, radius, color, intensity}` to `point_lights`. -/
def RenderDatabase.add_point_light (database : RenderDatabase F V M)
    (position : V) (radius : F) (color : V) (intensity : F) : RenderDatabase F V M :=
  { database with point_lights := database.point_lights ++
      [{ position := position, radius := radius, color := color, intensity := intensity }] }

/-- `ecs().view<Transform, Camera>()`: the entities holding both components, in
storage order. -/
def view_transform_camera (ecs : List (Entity F V)) : List (Transform V × Camera F V) :=
  ecs.filterMap (fun e =>
    match e.transform, e.camera with
    | some tf, some cam => some (tf, cam)
    | _, _ => none)

/-- `ecs().view<Transform, MeshRenderer, StaticMesh>()`. -/
def view_transform_renderer_mesh (ecs : List (Entity F V)) :
    List (Transform V × MeshRenderer × StaticMesh) :=
  ecs.filterMap (fun e =>
    match e.transform, e.mesh_renderer, e.static_mesh with
    | some transform, some rend, some mesh => some (transform, rend, mesh)
    | _, _, _ => none)

/-- `ecs().view<Transform, PointLight>()`. -/
def view_transform_light (ecs : List (Entity F V)) : List (Transform V × PointLight F V) :=
  ecs.filterMap (fun e =>
    match e.transform, e.point_light with
    | some tf, some light => some (tf, light)
    | _, _ => none)

/-- Record a call and apply its effect on the database. -/
def RenderState.call (s : RenderState F V M) (e : Event F V M)
    (effect : RenderDatabase F V M → RenderDatabase F V M) : RenderState F V M :=
  { database := effect s.database, log := s.log ++ [e] }

/-- The camera loop of `Renderer::render` (lines 65-73): the first entity of the
`Transform, Camera` view sets the camera fields, then `break`. -/
def fill_camera (glm : Glm F V M) (ecs : List (Entity F V)) (s : RenderState F V M) :
    RenderState F V M :=
  match view_transform_camera ecs with
  | [] => s
  | (tf, cam) :: _ =>
    s.call Event.database_set_camera (fun database =>
      let projection := glm.perspective cam.fov
        (glm.ratio scene_color_width scene_color_height) glm.near glm.far
      let projection := glm.negate_11 projection
      let view := glm.lookAt tf.position (glm.vec_add tf.position cam.front) cam.up
      { database with
          projection := projection,
          view := view,
          projection_view := glm.mat_mul projection view,
          camera_position := tf.position,
          environment_map := cam.env_map })

/-- The model matrix computed for one mesh renderer (lines 84-88). -/
def model_matrix (glm : Glm F V M) (transform : Transform V) : M :=
  let model := glm.translate glm.identity transform.position
  let model := glm.rotate model (glm.radians_vec transform.rotation)
  glm.scale model transform.scale

/-- The gated block of `Renderer::render` (lines 76-95): only when the
environment map is set and ready are materials, draws and point lights added. -/
def fill_draws (glm : Glm F V M) (assets : Assets) (ecs : List (Entity F V))
    (s : RenderState F V M) : RenderState F V M :=
  if s.database.environment_map.id ≠ assets.none_id
      ∧ assets.env_map_ready s.database.environment_map = true then
    let s := assets.loaded_materials.foldl (fun s id =>
      s.call (Event.add_material { id := id })
        (fun database => database.add_material { id := id })) s
    let s := (view_transform_renderer_mesh ecs).foldl (fun s x =>
      let draw : Draw M :=
        { mesh := x.2.2.mesh, material := x.2.1.material,
          transform := model_matrix glm x.1 }
      s.call (Event.add_draw draw) (fun database => database.add_draw draw)) s
    (view_transform_light ecs).foldl (fun s x =>
      s.call (Event.add_point_light
          { position := x.1.position, radius := x.2.radius, color := x.2.color,
            intensity := x.2.intensity })
        (fun database =>
          database.add_point_light x.1.position x.2.radius x.2.color x.2.intensity)) s
  else s

/-- The population step of `Renderer::render` (lines 60-95): reset, camera
loop, gated fill. -/
def populate (glm : Glm F V M) (assets : Assets) (ecs : List (Entity F V))
    (s : RenderState F V M) : RenderState F V M :=
  let s := s.call Event.database_reset (fun database => database.reset glm assets)
  let s := fill_camera glm ecs s
  fill_draws glm assets ecs s

/-- `Renderer::render` (lines 52-122), started with the database left by the
previous frame and an empty call log. -/
def render (glm : Glm F V M) (assets : Assets) (ecs : List (Entity F V))
    (database : RenderDatabase F V M) : RenderState F V M :=
  let s : RenderState F V M := { database := database, log := [] }
  let s := s.call Event.wait_for_available_frame id
  let s := s.call Event.get_frame_info id
  let s := populate glm assets ecs s
  let s := s.call (Event.geometry_build s.database) id
  let s := s.call (Event.lighting_build
    { output := Attachment.scene_color,
      depth := Attachment.geometry_depth,
      albedo_ao := Attachment.geometry_albedo_ao,
      metallic_roughness := Attachment.geometry_metallic_roughness,
      normal := Attachment.geometry_normal } s.database) id
  let s := s.call (Event.skybox_build
    { output := Attachment.scene_color,
      depth := Attachment.lighting_resolved_depth } s.database) id
  let s := s.call (Event.tonemap_build
    { input_hdr := Attachment.scene_color,
      output_ldr := Attachment.scene_color_tonemapped } s.database) id
  let s := s.call Event.imgui_render id
  let s := s.call Event.imgui_render_draw_data id
  let s := s.call Event.graph_build id
  let s := s.call Event.render_frame id
  s.call Event.present_frame id

/-- The four passes of the frame. -/
inductive PassKind where
  | geometry
  | lighting
  | skybox
  | tonemap
deriving DecidableEq, Repr

/-- The pass a build call belongs to, with the attachments it is handed as
outputs (`.output`, `.output_ldr`); the geometry pass is handed none. -/
def Event.handed_outputs : Event F V M → Option (PassKind × List Attachment)
  | Event.geometry_build _ => some (PassKind.geometry, [])
  | Event.lighting_build att _ => some (PassKind.lighting, [att.output])
  | Event.skybox_build att _ => some (PassKind.skybox, [att.output])
  | Event.tonemap_build att _ => some (PassKind.tonemap, [att.output_ldr])
  | _ => none

/-- The passes of a frame that are handed attachment `a` as an output, in build
order. -/
def writers (log : List (Event F V M)) (a : Attachment) : List PassKind :=
  ((log.filterMap Event.handed_outputs).filter (fun p => decide (a ∈ p.2))).map Prod.fst

/-- Calls that fill the database between the reset and the first pass build. -/
def Event.is_population : Event F V M → Bool
  | Event.database_set_camera => true
  | Event.add_material _ => true
  | Event.add_draw _ => true
  | Event.add_point_light _ => true
  | _ => false

/-- The steps of one frame, as the contract of `render` lists them. -/
inductive Step where
  | wait_for_frame
  | reset
  | populate
  | geometry
  | lighting
  | skybox
  | tonemap
  | finalize
  | submit
  | present
deriving DecidableEq, Repr

/-- The step a call belongs to; fetching the frame info and the two ImGui calls
belong to none of the listed steps. -/
def Event.step : Event F V M → Option Step
  | Event.wait_for_available_frame => some Step.wait_for_frame
  | Event.get_frame_info => none
  | Event.database_reset => some Step.reset
  | Event.database_set_camera => some Step.populate
  | Event.add_material _ => some Step.populate
  | Event.add_draw _ => some Step.populate
  | Event.add_point_light _ => some Step.populate
  | Event.geometry_build _ => some Step.geometry
  | Event.lighting_build _ _ => some Step.lighting
  | Event.skybox_build _ _ => some Step.skybox
  | Event.tonemap_build _ _ => some Step.tonemap
  | Event.imgui_render => none
  | Event.imgui_render_draw_data => none
  | Event.graph_build => some Step.finalize
  | Event.render_frame => some Step.submit
  | Event.present_frame => some Step.present

end Orchestrator

/-! ## Pipeline set-up (`BasicRenderer::create_pipeline`) -/

/-- `sizeof(float)`. -/
def sizeof_float : Nat := 4

/-- `vk::Format`, the vertex formats named in `create_pipeline`. -/
inductive Format where
  | eR32G32B32Sfloat
  | eR32G32Sfloat
deriving DecidableEq, Repr

/-- Number of 32-bit float components of a vertex format. -/
def Format.components : Format → Nat
  | Format.eR32G32B32Sfloat => 3
  | Format.eR32G32Sfloat => 2

/-- Byte size of one attribute of the format. -/
def Format.size (f : Format) : Nat := f.components * sizeof_float

/-- `vk::VertexInputRate`. -/
inductive VertexInputRate where
  | eVertex
  | eInstance
deriving DecidableEq, Repr

/-- `vk::VertexInputBindingDescription(binding, stride, inputRate)`. -/
structure VertexInputBindingDescription where
  binding : Nat
  stride : Nat
  inputRate : VertexInputRate
deriving DecidableEq, Repr

/-- `vk::VertexInputAttributeDescription(location, binding, format, offset)`. -/
structure VertexInputAttributeDescription where
  location : Nat
  binding : Nat
  format : Format
  offset : Nat
deriving DecidableEq, Repr

/-- `vk::DynamicState`, the states named in `create_pipeline`. -/
inductive DynamicState where
  | eViewport
  | eScissor
deriving DecidableEq, Repr

/-- `vk::CompareOp`, the operator named in `create_pipeline`. -/
inductive CompareOp where
  | eLess
deriving DecidableEq, Repr

/-- `vk::PipelineColorBlendAttachmentState`: blend switch and colour write
mask (R, G, B, A). -/
structure BlendAttachment where
  blendEnable : Bool
  write_r : Bool
  write_g : Bool
  write_b : Bool
  write_a : Bool
deriving DecidableEq, Repr

/-- A shader created from a binary on disk. -/
structure Shader where
  path : String
  entry : String
  stage : ShaderStage
deriving DecidableEq, Repr

/-- `ph::PipelineCreateInfo`, the fields `create_pipeline` fills. -/
structure PipelineCreateInfo where
  blend_logic_op_enable : Bool
  blend_attachments : List BlendAttachment
  dynamic_states : List DynamicState
  viewports : Nat
  scissors : Nat
  vertex_input_bindings : List VertexInputBindingDescription
  vertex_attributes : List VertexInputAttributeDescription
  shaders : List Shader
  depthTestEnable : Bool
  depthWriteEnable : Bool
  depthCompareOp : CompareOp
deriving DecidableEq, Repr

/-- `BasicRenderer::create_pipeline`: the create-info handed to
`create_named_pipeline("basic_pipeline", ...)`. -/
def create_pipeline : PipelineCreateInfo :=
  let stride := (3 + 3 + 3 + 2) * sizeof_float
  { blend_logic_op_enable := false,
    blend_attachments :=
      [{ blendEnable := false, write_r := true, write_g := true, write_b := true,
         write_a := true }],
    dynamic_states := [DynamicState.eViewport, DynamicState.eScissor],
    viewports := 1,
    scissors := 1,
    vertex_input_bindings :=
      [{ binding := 0, stride := stride, inputRate := VertexInputRate.eVertex }],
    vertex_attributes :=
      [{ location := u32 0, binding := u32 0, format := Format.eR32G32B32Sfloat,
         offset := u32 0 },
       { location := u32 1, binding := u32 0, format := Format.eR32G32B32Sfloat,
         offset := u32 (3 * u32 sizeof_float) },
       { location := u32 2, binding := u32 0, format := Format.eR32G32B32Sfloat,
         offset := u32 (6 * u32 sizeof_float) },
       { location := u32 3, binding := u32 0, format := Format.eR32G32Sfloat,
         offset := u32 (9 * u32 sizeof_float) }],
    shaders :=
      [{ path := "data/shaders/basic.vert.spv", entry := "main", stage := ShaderStage.eVertex },
       { path := "data/shaders/basic.frag.spv", entry := "main",
         stage := ShaderStage.eFragment }],
    depthTestEnable := true,
    depthWriteEnable := true,
    depthCompareOp := CompareOp.eLess }

/-- Offset of attribute `i` in a tightly packed interleaved vertex: 4 bytes
times the component counts of the attributes before it. -/
def packed_offset (formats : List Format) (i : Nat) : Nat :=
  sizeof_float * ((formats.take i).map Format.components).sum

/-! ## Example inputs -/

/-- Example scene snapshot: three draws over meshes 0, 1, 2. -/
def example_database : RenderDatabase Nat Nat Nat :=
  { projection := 0, view := 0, projection_view := 0, camera_position := 0,
    environment_map := { id := 7 }, materials := [],
    draws := [{ mesh := { id := 0 }, material := { id := 0 }, transform := 10 },
              { mesh := { id := 1 }, material := { id := 0 }, transform := 11 },
              { mesh := { id := 2 }, material := { id := 0 }, transform := 12 }],
    transforms := [10, 11, 12], point_lights := [] }

/-- Example asset table: mesh `h` has buffers `100 + h`, `200 + h` and
`3 * (h + 1)` indices. -/
def example_assets_get (h : Handle) : Mesh :=
  { vertices := 100 + h.id, indices := 200 + h.id, index_count := 3 * (h.id + 1) }

/-- Example readiness: every mesh but mesh 1 is ready. -/
def example_is_ready (h : Handle) : Bool := h.id != 1

/-- Readiness under which every mesh is ready. -/
def example_all_ready (_h : Handle) : Bool := true

/-- Example binding points. -/
def example_bindings : Bindings := { camera := 0, transforms := 1 }

/-- A draw list of `2^32` draws, one more than a `uint32_t` index can count. -/
def wrapping_database : RenderDatabase Nat Nat Nat :=
  { projection := 0, view := 0, projection_view := 0, camera_position := 0,
    environment_map := { id := 7 }, materials := [],
    draws := List.replicate (2 ^ 32)
      { mesh := { id := 0 }, material := { id := 0 }, transform := 0 },
    transforms := List.replicate (2 ^ 32) 0, point_lights := [] }

/-- Example glm stand-in over the naturals. -/
def example_glm : Glm Nat Nat Nat :=
  { perspective := fun fov aspect near far => fov + aspect + near + far,
    lookAt := fun eye center up => eye + center + up,
    mat_mul := fun a b => a * b,
    negate_11 := fun m => m + 1,
    vec_add := fun a b => a + b,
    identity := 1,
    translate := fun m v => m + v,
    rotate := fun m v => m + 2 * v,
    scale := fun m v => m * v,
    radians_vec := fun v => v,
    ratio := fun w h => w / h,
    near := 0,
    far := 100,
    zero := 0 }

/-- Example asset state: "none" is id 255, environment map 7 is ready, one
material is loaded. -/
def example_assets : Assets :=
  { none_id := 255, env_map_ready := fun h => h.id == 7, loaded_materials := [4] }

/-- A mesh-renderer entity over mesh and material `n`, placed at `n`. -/
def example_mesh_entity (n : Nat) : Entity Nat Nat :=
  { transform := some { position := n, rotation := 0, scale := 1 },
    camera := none,
    mesh_renderer := some { material := { id := n } },
    static_mesh := some { mesh := { id := n } },
    point_light := none }

/-- A camera entity looking through environment map `env`. -/
def example_camera_entity (env : Nat) : Entity Nat Nat :=
  { transform := some { position := 5, rotation := 0, scale := 1 },
    camera := some { fov := 60, front := 1, up := 1, env_map := { id := env } },
    mesh_renderer := none, static_mesh := none, point_light := none }

/-- A point-light entity. -/
def example_light_entity : Entity Nat Nat :=
  { transform := some { position := 9, rotation := 0, scale := 1 },
    camera := none, mesh_renderer := none, static_mesh := none,
    point_light := some { radius := 3, color := 2, intensity := 1 } }

/-- Scene with a camera on the ready environment map 7, three mesh renderers
and a light. -/
def example_scene : List (Entity Nat Nat) :=
  [example_camera_entity 7, example_mesh_entity 0, example_mesh_entity 1,
   example_mesh_entity 2, example_light_entity]

/-- The same scene with the camera on environment map 8, which is not ready. -/
def example_scene_unready : List (Entity Nat Nat) :=
  [example_camera_entity 8, example_mesh_entity 0, example_mesh_entity 1,
   example_mesh_entity 2, example_light_entity]

/-- The same scene without a camera entity. -/
def example_scene_no_camera : List (Entity Nat Nat) :=
  [example_mesh_entity 0, example_mesh_entity 1, example_mesh_entity 2, example_light_entity]

/-! ## Proof-side predicates -/

section Predicates

variable {F V M : Type}

/-- The log of `s2` extends the log of `s1` by population calls only. -/
def ExtendsByPopulation (s1 s2 : RenderState F V M) : Prop :=
  ∃ out : List (Event F V M), s2.log = s1.log ++ out ∧ ∀ e ∈ out, e.is_population = true

/-- Database facts kept by every call of the gated block. -/
def KeepsCamera (d0 d : RenderDatabase F V M) : Prop :=
  d.projection = d0.projection ∧ d.view = d0.view ∧ d.projection_view = d0.projection_view ∧
  d.camera_position = d0.camera_position ∧ d.environment_map = d0.environment_map

end Predicates

/-! ## Theorems -/

section Theorems

variable {F V M : Type}

theorem u32_of_lt {n : Nat} (h : n < 2 ^ 32) : u32 n = n := Nat.mod_eq_of_lt h

theorem draw_loop_bounded (is_ready : Handle → Bool) (assets_get : Handle → Mesh)
    (draws : List (Draw M)) (hlen : draws.length < 2 ^ 32) :
    ∀ (k i fuel : Nat) (acc : CommandBuffer M), i + k = draws.length → k < fuel →
      draw_loop is_ready assets_get draws fuel i acc =
        (acc ++ (((draws.drop i).enumFrom i).filter (fun p => is_ready p.2.mesh)).flatMap
          (fun p => record_draw (assets_get p.2.mesh) p.1), true) := by
  intro k
  induction k with
  | zero =>
    intro i fuel acc hi hf
    obtain ⟨f, rfl⟩ : ∃ f, fuel = f + 1 := ⟨fuel - 1, by omega⟩
    have hi' : i = draws.length := by omega
    subst hi'
    simp [draw_loop]
  | succ k ih =>
    intro i fuel acc hi hf
    obtain ⟨f, rfl⟩ : ∃ f, fuel = f + 1 := ⟨fuel - 1, by omega⟩
    have hlt : i < draws.length := by omega
    have hu : u32 (i + 1) = i + 1 := u32_of_lt (by omega)
    rw [draw_loop, dif_pos hlt, List.drop_eq_getElem_cons hlt, List.enumFrom_cons,
      List.filter_cons]
    by_cases hr : is_ready draws[i].mesh = true
    · simp only [hr, Bool.not_true, Bool.false_eq_true, if_false, if_true, hu,
        List.flatMap_cons]
      rw [ih (i + 1) f _ (by omega) (by omega), List.append_assoc]
    · simp only [Bool.not_eq_true] at hr
      simp only [hr, Bool.not_false, if_true, Bool.false_eq_true, if_false, hu]
      rw [ih (i + 1) f _ (by omega) (by omega)]

theorem render_frame_callback_nonempty (is_ready : Handle → Bool) (assets_get : Handle → Mesh)
    (bindings : Bindings) (pfb : PerFrameBuffers M) (database : RenderDatabase F V M)
    (fuel : Nat) (hne : database.draws ≠ []) :
    render_frame_callback is_ready assets_get bindings pfb database fuel =
      { cmd_buf := (draw_loop is_ready assets_get database.draws fuel 0
          (callback_prologue bindings database)).1,
        per_frame_buffers :=
          { camera := { size := sizeof_mat4 + sizeof_vec4, data := [database.projection_view] },
            transforms := { size := database.transforms.length * sizeof_mat4,
                            data := database.transforms } },
        returned := (draw_loop is_ready assets_get database.draws fuel 0
          (callback_prologue bindings database)).2 } := by
  have h : database.draws.isEmpty = false := by
    cases hd : database.draws with
    | nil => exact absurd hd hne
    | cons a t => rfl
  simp [render_frame_callback, h, update_transforms, update_camera_data, get_descriptors,
    callback_prologue]

theorem draw_calls_append (a b : List (Cmd M)) :
    draw_calls (a ++ b) = draw_calls a + draw_calls b := by
  simp [draw_calls, List.countP_append]

theorem draw_calls_flatMap_record (assets_get : Handle → Mesh) (l : List (Nat × Draw M)) :
    draw_calls (l.flatMap (fun p => (record_draw (assets_get p.2.mesh) p.1 : List (Cmd M))))
      = l.length := by
  induction l with
  | nil => rfl
  | cons a t ih =>
    rw [List.flatMap_cons, draw_calls_append, ih]
    simp [draw_calls, record_draw, List.countP_cons]
    omega

theorem push_values_append (a b : List (Cmd M)) :
    push_constant_values (a ++ b) = push_constant_values a ++ push_constant_values b := by
  simp [push_constant_values, List.filterMap_append]

theorem push_values_flatMap_record (assets_get : Handle → Mesh) (l : List (Nat × Draw M)) :
    push_constant_values
      (l.flatMap (fun p => (record_draw (assets_get p.2.mesh) p.1 : List (Cmd M))))
      = l.map Prod.fst := by
  induction l with
  | nil => rfl
  | cons a t ih =>
    rw [List.flatMap_cons, push_values_append, ih]
    simp [push_constant_values, record_draw]

theorem length_filter_enumFrom (p : Draw M → Bool) (l : List (Draw M)) (k : Nat) :
    ((l.enumFrom k).filter (fun q => p q.2)).length = (l.filter p).length := by
  induction l generalizing k with
  | nil => rfl
  | cons a t ih =>
    rw [List.enumFrom_cons, List.filter_cons, List.filter_cons]
    by_cases h : p a = true
    · simp [h, ih]
    · simp [h, ih]

theorem draw_loop_wraps (is_ready : Handle → Bool) (assets_get : Handle → Mesh)
    (draws : List (Draw M)) (hlen : 2 ^ 32 ≤ draws.length)
    (hready : ∀ d ∈ draws, is_ready d.mesh = true) :
    ∀ (fuel i : Nat) (acc : CommandBuffer M), i < 2 ^ 32 →
      (draw_loop is_ready assets_get draws fuel i acc).2 = false ∧
      draw_calls (draw_loop is_ready assets_get draws fuel i acc).1 = draw_calls acc + fuel := by
  intro fuel
  induction fuel with
  | zero => intro i acc _; simp [draw_loop]
  | succ f ih =>
    intro i acc hi
    have hlt : i < draws.length := by omega
    have hr : is_ready draws[i].mesh = true := hready _ (List.getElem_mem hlt)
    have hu : u32 (i + 1) < 2 ^ 32 := Nat.mod_lt _ (by norm_num)
    rw [draw_loop, dif_pos hlt]
    simp only [hr, Bool.not_true, Bool.false_eq_true, if_false]
    obtain ⟨h1, h2⟩ := ih (u32 (i + 1)) (acc ++ record_draw (assets_get draws[i].mesh) i) hu
    refine ⟨h1, ?_⟩
    rw [h2, draw_calls_append]
    simp [draw_calls, record_draw, List.countP_cons]
    omega

theorem draw_calls_prologue (bindings : Bindings) (database : RenderDatabase F V M) :
    draw_calls (callback_prologue bindings database) = 0 := by
  simp [draw_calls, callback_prologue]

theorem callback_never_returns (is_ready : Handle → Bool) (assets_get : Handle → Mesh)
    (bindings : Bindings) (pfb : PerFrameBuffers M) (database : RenderDatabase F V M)
    (hlen : 2 ^ 32 ≤ database.draws.length)
    (hready : ∀ d ∈ database.draws, is_ready d.mesh = true) (fuel : Nat) :
    (render_frame_callback is_ready assets_get bindings pfb database fuel).returned = false ∧
    draw_calls (render_frame_callback is_ready assets_get bindings pfb database fuel).cmd_buf
      = fuel := by
  have hne : database.draws ≠ [] := by
    intro h
    rw [h] at hlen
    exact absurd hlen (by norm_num)
  have hw := draw_loop_wraps is_ready assets_get database.draws hlen hready fuel 0
    (callback_prologue bindings database) (by norm_num)
  rw [render_frame_callback_nonempty _ _ _ _ _ _ hne]
  refine ⟨hw.1, ?_⟩
  show draw_calls (draw_loop _ _ _ _ _ _).1 = _
  rw [hw.2, draw_calls_prologue, Nat.zero_add]

theorem basic_pass_records_ready_draws_aux (is_ready : Handle → Bool)
    (assets_get : Handle → Mesh)
    (bindings : Bindings) (pfb : PerFrameBuffers M) (database : RenderDatabase F V M)
    (fuel : Nat) (hne : database.draws ≠ []) (hlen : database.draws.length < 2 ^ 32)
    (hfuel : database.draws.length < fuel) :
    (render_frame_callback is_ready assets_get bindings pfb database fuel).returned = true ∧
    (render_frame_callback is_ready assets_get bindings pfb database fuel).cmd_buf =
      callback_prologue bindings database ++
        (ready_draws is_ready database.draws).flatMap
          (fun p => record_draw (assets_get p.2.mesh) p.1) := by
  rw [render_frame_callback_nonempty _ _ _ _ _ _ hne]
  have h := draw_loop_bounded is_ready assets_get database.draws hlen
    database.draws.length 0 fuel (callback_prologue bindings database) (by omega) hfuel
  simp only [List.drop_zero] at h
  simp only [h, ready_draws, List.enum, true_and]

/-- Claim C1, as amended: for a non-empty draw list of fewer than `2^32` draws
(the range of the `uint32_t` draw index) and any readiness of the meshes, the
pass callback returns, and what it records is the fixed prologue followed, for
each ready draw in increasing index order, by `bind_vertex_buffer`,
`bind_index_buffer`, `push_constants` with the index of the draw, and
`draw_indexed`; draws that are not ready add nothing, so the number of draw
calls is the number of ready draws. -/
theorem basic_pass_records_ready_draws (is_ready : Handle → Bool) (assets_get : Handle → Mesh)
    (bindings : Bindings) (pfb : PerFrameBuffers M) (database : RenderDatabase F V M)
    (fuel : Nat) (hne : database.draws ≠ []) (hlen : database.draws.length < 2 ^ 32)
    (hfuel : database.draws.length < fuel) :
    (render_frame_callback is_ready assets_get bindings pfb database fuel).returned = true ∧
    (render_frame_callback is_ready assets_get bindings pfb database fuel).cmd_buf =
      callback_prologue bindings database ++
        (ready_draws is_ready database.draws).flatMap
          (fun p => record_draw (assets_get p.2.mesh) p.1) ∧
    draw_calls (render_frame_callback is_ready assets_get bindings pfb database fuel).cmd_buf =
      (database.draws.filter (fun d => is_ready d.mesh)).length := by
  rw [render_frame_callback_nonempty _ _ _ _ _ _ hne]
  have h := draw_loop_bounded is_ready assets_get database.draws hlen
    database.draws.length 0 fuel (callback_prologue bindings database) (by omega) hfuel
  simp only [List.drop_zero] at h
  simp only [h, ready_draws, List.enum, true_and]
  rw [draw_calls_append, draw_calls_flatMap_record,
    length_filter_enumFrom (fun d => is_ready d.mesh)]
  simp [draw_calls, callback_prologue]

/-- Witness for claim C1: three draws with draw 1 not ready give two draw calls,
bound to indices 0 and 2. -/
theorem basic_pass_records_ready_draws_witness :
    example_database.draws ≠ [] ∧
    example_database.draws.length < 2 ^ 32 ∧
    example_database.draws.length < 4 ∧
    draw_calls (render_frame_callback example_is_ready example_assets_get
      example_bindings PerFrameBuffers.empty example_database 4).cmd_buf = 2 ∧
    push_constant_values (render_frame_callback example_is_ready example_assets_get
      example_bindings PerFrameBuffers.empty example_database 4).cmd_buf = [0, 2] :=
  ⟨by decide, by decide, by decide,
   by
    have h := (basic_pass_records_ready_draws example_is_ready example_assets_get
      example_bindings PerFrameBuffers.empty example_database 4
      (by decide) (by decide) (by decide)).2.2
    rw [h]; decide,
   by decide⟩

/-- Counterexample to claim C1 as stated: on a draw list of `2^32` ready draws
the `uint32_t` index wraps to 0 before the loop condition can fail, so the
callback never returns; after `2^32 + 1` iterations it has recorded `2^32 + 1`
draw calls for `2^32` ready draws. -/
theorem uint32_draw_index_wraps :
    wrapping_database.draws ≠ [] ∧
    (wrapping_database.draws.filter (fun d => example_all_ready d.mesh)).length = 2 ^ 32 ∧
    draw_calls (render_frame_callback example_all_ready example_assets_get
      example_bindings PerFrameBuffers.empty wrapping_database
      (2 ^ 32 + 1)).cmd_buf = 2 ^ 32 + 1 ∧
    ¬ ∃ fuel, (render_frame_callback example_all_ready example_assets_get
      example_bindings PerFrameBuffers.empty wrapping_database
      fuel).returned = true := by
  have hlen : 2 ^ 32 ≤ wrapping_database.draws.length := by
    simp only [wrapping_database, List.length_replicate, le_refl]
  have hne : wrapping_database.draws ≠ [] := by
    intro h
    rw [h] at hlen
    exact absurd hlen (by norm_num)
  have hw := callback_never_returns example_all_ready example_assets_get
    example_bindings PerFrameBuffers.empty wrapping_database hlen
    (fun _ _ => rfl)
  refine ⟨hne, ?_, (hw _).2, ?_⟩
  · have hall : wrapping_database.draws.filter (fun d => example_all_ready d.mesh) =
        wrapping_database.draws := List.filter_eq_self.2 (fun _ _ => rfl)
    rw [hall]
    simp only [wrapping_database, List.length_replicate]
  · rintro ⟨fuel, h⟩
    rw [(hw fuel).1] at h
    exact Bool.noConfusion h

theorem nth_ready_index (p : Draw M → Bool) :
    ∀ (l : List (Draw M)) (k N v : Nat),
      (((l.enumFrom k).filter (fun q => p q.2)).map Prod.fst)[N]? = some v →
      k ≤ v ∧ ∃ hv : v - k < l.length,
        p l[v - k] = true ∧ ((l.take (v - k)).filter p).length = N := by
  intro l
  induction l with
  | nil => intro k N v h; simp at h
  | cons a t ih =>
    intro k N v h
    rw [List.enumFrom_cons, List.filter_cons] at h
    by_cases ha : p a = true
    · simp only [ha, if_true, List.map_cons] at h
      cases N with
      | zero =>
        simp only [List.getElem?_cons_zero, Option.some.injEq] at h
        subst h
        simp [ha]
      | succ N =>
        rw [List.getElem?_cons_succ] at h
        obtain ⟨hk, hv, hp, hc⟩ := ih (k + 1) N v h
        obtain ⟨j, hj⟩ : ∃ j, v - k = j + 1 := ⟨v - k - 1, by omega⟩
        have hj2 : v - (k + 1) = j := by omega
        refine ⟨by omega, by simp only [List.length_cons]; omega, ?_, ?_⟩
        · simp only [hj, List.getElem_cons_succ]
          simpa only [hj2] using hp
        · simp only [hj, List.take_succ_cons, List.filter_cons, ha, if_true, List.length_cons]
          rw [← hj2, hc]
    · have ha : p a = false := by simpa using ha
      simp only [ha, Bool.false_eq_true, if_false] at h
      obtain ⟨hk, hv, hp, hc⟩ := ih (k + 1) N v h
      obtain ⟨j, hj⟩ : ∃ j, v - k = j + 1 := ⟨v - k - 1, by omega⟩
      have hj2 : v - (k + 1) = j := by omega
      refine ⟨by omega, by simp only [List.length_cons]; omega, ?_, ?_⟩
      · simp only [hj, List.getElem_cons_succ]
        simpa only [hj2] using hp
      · simp only [hj, List.take_succ_cons, List.filter_cons, ha, Bool.false_eq_true, if_false]
        rw [← hj2, hc]

/-- Claim C2, as amended: for a draw list of fewer than `2^32` draws, the push
constant bound for the `N`-th recorded draw call is the draw-list index `v` of
the `N`-th ready draw, which is the index of its entry of `transforms`: `v` is
in range, draw `v` is ready, exactly `N` draws before `v` are ready, `N ≤ v`,
and `v = N` exactly when every draw before `v` is ready. -/
theorem push_constant_is_ready_draw_index (is_ready : Handle → Bool)
    (assets_get : Handle → Mesh) (bindings : Bindings) (pfb : PerFrameBuffers M)
    (database : RenderDatabase F V M) (fuel : Nat)
    (hlen : database.draws.length < 2 ^ 32) (hfuel : database.draws.length < fuel) :
    push_constant_values
        (render_frame_callback is_ready assets_get bindings pfb database fuel).cmd_buf =
      (ready_draws is_ready database.draws).map Prod.fst ∧
    ∀ N v : Nat,
      (push_constant_values
        (render_frame_callback is_ready assets_get bindings pfb database fuel).cmd_buf)[N]?
          = some v →
      ∃ hv : v < database.draws.length,
        is_ready database.draws[v].mesh = true ∧
        ((database.draws.take v).filter (fun d => is_ready d.mesh)).length = N ∧
        N ≤ v ∧
        (v = N ↔ ∀ d ∈ database.draws.take v, is_ready d.mesh = true) := by
  have key : push_constant_values
        (render_frame_callback is_ready assets_get bindings pfb database fuel).cmd_buf =
      (ready_draws is_ready database.draws).map Prod.fst := by
    by_cases hne : database.draws = []
    · simp [render_frame_callback, hne, ready_draws, push_constant_values, List.enum]
    · rw [(basic_pass_records_ready_draws_aux is_ready assets_get bindings pfb database fuel
        hne hlen hfuel).2, push_values_append, push_values_flatMap_record]
      simp [push_constant_values, callback_prologue]
  refine ⟨key, ?_⟩
  intro N v h
  rw [key, ready_draws, List.enum] at h
  obtain ⟨_, hv, hp, hc⟩ := nth_ready_index (fun d => is_ready d.mesh) database.draws 0 N v h
  simp only [Nat.sub_zero] at hv hp hc
  have hle : ((database.draws.take v).filter (fun d => is_ready d.mesh)).length ≤ v :=
    le_trans (List.length_filter_le _ _) (List.length_take_le _ _)
  refine ⟨hv, hp, hc, by omega, ?_⟩
  have htake : (database.draws.take v).length = v := List.length_take_of_le (by omega)
  constructor
  · intro hvn
    apply List.filter_length_eq_length.1
    rw [hc, htake, hvn]
  · intro hall
    have := List.filter_length_eq_length.2 hall
    rw [hc, htake] at this
    exact this.symm

theorem draw_loop_emits (is_ready : Handle → Bool) (assets_get : Handle → Mesh)
    (draws : List (Draw M)) :
    ∀ (fuel i : Nat) (acc : CommandBuffer M),
      ∃ out : List (Cmd M),
        (draw_loop is_ready assets_get draws fuel i acc).1 = acc ++ out ∧
        ∀ c ∈ out, is_per_draw c = true ∧
          ∀ stage offset size v, c = Cmd.push_constants stage offset size v →
            v < draws.length := by
  intro fuel
  induction fuel with
  | zero => intro i acc; exact ⟨[], by simp [draw_loop]⟩
  | succ f ih =>
    intro i acc
    rw [draw_loop]
    by_cases hlt : i < draws.length
    · rw [dif_pos hlt]
      by_cases hr : is_ready draws[i].mesh = true
      · simp only [hr, Bool.not_true, Bool.false_eq_true, if_false]
        obtain ⟨out, h1, h2⟩ := ih (u32 (i + 1)) (acc ++ record_draw (assets_get draws[i].mesh) i)
        refine ⟨record_draw (assets_get draws[i].mesh) i ++ out, ?_, ?_⟩
        · rw [h1, List.append_assoc]
        · intro c hc
          rcases List.mem_append.1 hc with hc | hc
          · simp only [record_draw, List.mem_cons, List.mem_singleton, List.not_mem_nil,
              or_false] at hc
            rcases hc with rfl | rfl | rfl | rfl
            · exact ⟨rfl, fun _ _ _ _ h => by cases h⟩
            · exact ⟨rfl, fun _ _ _ _ h => by cases h⟩
            · exact ⟨rfl, fun _ _ _ _ h => by cases h; exact hlt⟩
            · exact ⟨rfl, fun _ _ _ _ h => by cases h⟩
          · exact h2 c hc
      · have hr : is_ready draws[i].mesh = false := by simpa using hr
        simp only [hr, Bool.not_false, if_true]
        exact ih _ _
    · rw [dif_neg hlt]
      exact ⟨[], by simp⟩

/-- Claim C3: whatever the database and however far the callback has run, the
first call recorded is `auto_viewport_scissor`; with an empty draw list it is
the only call, no scratch buffer is allocated, and the callback returns with
zero draw calls. -/
theorem viewport_scissor_first (is_ready : Handle → Bool) (assets_get : Handle → Mesh)
    (bindings : Bindings) (pfb : PerFrameBuffers M) (database : RenderDatabase F V M)
    (fuel : Nat) :
    (render_frame_callback is_ready assets_get bindings pfb database fuel).cmd_buf.head?
      = some Cmd.auto_viewport_scissor ∧
    (database.draws = [] →
      (render_frame_callback is_ready assets_get bindings pfb database fuel).cmd_buf
        = [Cmd.auto_viewport_scissor] ∧
      (render_frame_callback is_ready assets_get bindings pfb database fuel).per_frame_buffers
        = pfb ∧
      (render_frame_callback is_ready assets_get bindings pfb database fuel).returned = true ∧
      draw_calls
        (render_frame_callback is_ready assets_get bindings pfb database fuel).cmd_buf = 0) := by
  constructor
  · by_cases hne : database.draws = []
    · simp [render_frame_callback, hne]
    · rw [render_frame_callback_nonempty _ _ _ _ _ _ hne]
      obtain ⟨out, h1, _⟩ := draw_loop_emits is_ready assets_get database.draws fuel 0
        (callback_prologue bindings database)
      simp only [h1]
      simp [callback_prologue]
  · intro he
    simp [render_frame_callback, he, draw_calls]

/-- Witness for claim C3: an empty draw list records the viewport and scissor
call alone; a three-draw list still starts with it. -/
theorem viewport_scissor_first_witness :
    ({ example_database with draws := [], transforms := [] } : RenderDatabase Nat Nat Nat).draws
      = [] ∧
    (render_frame_callback example_is_ready example_assets_get example_bindings
      PerFrameBuffers.empty { example_database with draws := [], transforms := [] } 0).cmd_buf
      = [Cmd.auto_viewport_scissor] ∧
    (render_frame_callback example_is_ready example_assets_get example_bindings
      PerFrameBuffers.empty example_database 4).cmd_buf.head?
      = some Cmd.auto_viewport_scissor :=
  ⟨rfl,
   ((viewport_scissor_first example_is_ready example_assets_get example_bindings
      PerFrameBuffers.empty { example_database with draws := [], transforms := [] } 0).2 rfl).1,
   (viewport_scissor_first example_is_ready example_assets_get example_bindings
      PerFrameBuffers.empty example_database 4).1⟩

/-- Claim C10: with a non-empty draw list and `transforms.size() == draws.size()`,
at every point of the run the callback has allocated the transform storage
buffer once, as its fourth call and before any per-draw call, with
`64 * transforms.size()` bytes holding the transforms, and every push constant
`i` recorded satisfies `i < transforms.size()`, so bytes `[64 i, 64 i + 64)` lie
inside the buffer. -/
theorem transform_slots_in_bounds (is_ready : Handle → Bool) (assets_get : Handle → Mesh)
    (bindings : Bindings) (pfb : PerFrameBuffers M) (database : RenderDatabase F V M)
    (fuel : Nat) (hne : database.draws ≠ [])
    (hsz : database.transforms.length = database.draws.length) :
    ∃ post : List (Cmd M),
      (render_frame_callback is_ready assets_get bindings pfb database fuel).cmd_buf =
        [Cmd.auto_viewport_scissor, Cmd.get_pipeline "basic_pipeline",
         Cmd.bind_pipeline "basic_pipeline",
         Cmd.allocate_scratch_ssbo (64 * database.transforms.length)] ++ post ∧
      (∀ c ∈ post, is_ssbo_allocation c = false) ∧
      (render_frame_callback is_ready assets_get bindings pfb database fuel).per_frame_buffers.transforms
        = { size := 64 * database.transforms.length, data := database.transforms } ∧
      ∀ stage offset size i,
        Cmd.push_constants stage offset size i ∈
          (render_frame_callback is_ready assets_get bindings pfb database fuel).cmd_buf →
        i < database.transforms.length ∧
        64 * i + 64 ≤ 64 * database.transforms.length := by
  rw [render_frame_callback_nonempty _ _ _ _ _ _ hne]
  obtain ⟨out, h1, h2⟩ := draw_loop_emits is_ready assets_get database.draws fuel 0
    (callback_prologue bindings database)
  simp only [h1]
  refine ⟨(callback_prologue bindings database).drop 4 ++ out, ?_, ?_, ?_, ?_⟩
  · simp [callback_prologue, sizeof_mat4, Nat.mul_comm]
  · intro c hc
    rcases List.mem_append.1 hc with hc | hc
    · simp only [callback_prologue, List.drop_succ_cons, List.drop_zero, List.mem_cons,
        List.mem_singleton, List.not_mem_nil, or_false] at hc
      rcases hc with rfl | rfl | rfl <;> rfl
    · have := (h2 c hc).1
      cases c <;> simp_all [is_per_draw, is_ssbo_allocation]
  · simp [sizeof_mat4, Nat.mul_comm]
  · intro stage offset size i hmem
    have hi : i < database.draws.length := by
      rcases List.mem_append.1 hmem with hc | hc
      · simp [callback_prologue] at hc
      · exact (h2 _ hc).2 stage offset size i rfl
    omega

theorem foldl_invariant {α β : Type} (P : β → Prop) (f : β → α → β)
    (hf : ∀ b a, P b → P (f b a)) : ∀ (l : List α) (b : β), P b → P (l.foldl f b) := by
  intro l
  induction l with
  | nil => intro b hb; exact hb
  | cons a t ih => intro b hb; exact ih (f b a) (hf b a hb)

theorem ExtendsByPopulation.refl (s : RenderState F V M) : ExtendsByPopulation s s :=
  ⟨[], by simp, by simp⟩

theorem ExtendsByPopulation.step {s1 s2 : RenderState F V M} (h : ExtendsByPopulation s1 s2)
    (e : Event F V M) (he : e.is_population = true)
    (effect : RenderDatabase F V M → RenderDatabase F V M) :
    ExtendsByPopulation s1 (s2.call e effect) := by
  obtain ⟨out, h1, h2⟩ := h
  refine ⟨out ++ [e], by simp [RenderState.call, h1], ?_⟩
  intro x hx
  rcases List.mem_append.1 hx with hx | hx
  · exact h2 x hx
  · simp only [List.mem_singleton] at hx
    rw [hx]; exact he

theorem fill_camera_extends (glm : Glm F V M) (ecs : List (Entity F V))
    (s0 s : RenderState F V M) (h : ExtendsByPopulation s0 s) :
    ExtendsByPopulation s0 (fill_camera glm ecs s) := by
  unfold fill_camera
  split
  · exact h
  · exact h.step _ (by rfl) _

theorem fill_draws_extends (glm : Glm F V M) (assets : Assets) (ecs : List (Entity F V))
    (s0 s : RenderState F V M) (h : ExtendsByPopulation s0 s) :
    ExtendsByPopulation s0 (fill_draws glm assets ecs s) := by
  unfold fill_draws
  split
  · apply foldl_invariant (ExtendsByPopulation s0)
    · intro b a hb; exact hb.step _ (by rfl) _
    apply foldl_invariant (ExtendsByPopulation s0)
    · intro b a hb; exact hb.step _ (by rfl) _
    apply foldl_invariant (ExtendsByPopulation s0)
    · intro b a hb; exact hb.step _ (by rfl) _
    exact h
  · exact h

theorem populate_log (glm : Glm F V M) (assets : Assets) (ecs : List (Entity F V))
    (s : RenderState F V M) :
    ∃ fill : List (Event F V M),
      (populate glm assets ecs s).log = s.log ++ [Event.database_reset] ++ fill ∧
      ∀ e ∈ fill, e.is_population = true := by
  have h := fill_draws_extends glm assets ecs _ _
    (fill_camera_extends glm ecs _ _
      (ExtendsByPopulation.refl
        (s.call Event.database_reset (fun database => database.reset glm assets))))
  obtain ⟨out, h1, h2⟩ := h
  exact ⟨out, by rw [populate, h1]; simp [RenderState.call], h2⟩

theorem fill_draws_keeps_camera (glm : Glm F V M) (assets : Assets) (ecs : List (Entity F V))
    (s : RenderState F V M) :
    KeepsCamera s.database (fill_draws glm assets ecs s).database := by
  unfold fill_draws
  split
  · apply foldl_invariant (fun t : RenderState F V M => KeepsCamera s.database t.database)
    · intro b a hb; exact hb
    apply foldl_invariant (fun t : RenderState F V M => KeepsCamera s.database t.database)
    · intro b a hb; exact hb
    apply foldl_invariant (fun t : RenderState F V M => KeepsCamera s.database t.database)
    · intro b a hb; exact hb
    exact ⟨rfl, rfl, rfl, rfl, rfl⟩
  · exact ⟨rfl, rfl, rfl, rfl, rfl⟩

theorem fill_draws_closed (glm : Glm F V M) (assets : Assets) (ecs : List (Entity F V))
    (s : RenderState F V M)
    (h : s.database.environment_map.id = assets.none_id ∨
      assets.env_map_ready s.database.environment_map = false) :
    fill_draws glm assets ecs s = s := by
  unfold fill_draws
  rw [if_neg]
  rintro ⟨h1, h2⟩
  rcases h with h | h
  · exact h1 h
  · rw [h] at h2; exact Bool.noConfusion h2

theorem fill_camera_lists (glm : Glm F V M) (ecs : List (Entity F V)) (s : RenderState F V M) :
    (fill_camera glm ecs s).database.draws = s.database.draws ∧
    (fill_camera glm ecs s).database.transforms = s.database.transforms ∧
    (fill_camera glm ecs s).database.point_lights = s.database.point_lights := by
  unfold fill_camera
  split <;> exact ⟨rfl, rfl, rfl⟩

theorem view_transform_camera_nil (ecs : List (Entity F V))
    (h : ∀ e ∈ ecs, e.transform = none ∨ e.camera = none) :
    view_transform_camera ecs = [] := by
  unfold view_transform_camera
  rw [List.filterMap_eq_nil_iff]
  intro e he
  rcases h e he with h | h <;> simp [h]

/-- Claim C4: after the population step, if the environment map of the database
is the "none" handle or is not ready, then `draws`, `transforms` and
`point_lights` are empty, whatever the scene holds. -/
theorem no_environment_no_draws (glm : Glm F V M) (assets : Assets) (ecs : List (Entity F V))
    (s : RenderState F V M)
    (h : (populate glm assets ecs s).database.environment_map.id = assets.none_id ∨
      assets.env_map_ready (populate glm assets ecs s).database.environment_map = false) :
    (populate glm assets ecs s).database.draws = [] ∧
    (populate glm assets ecs s).database.transforms = [] ∧
    (populate glm assets ecs s).database.point_lights = [] := by
  unfold populate at h ⊢
  have hk := (fill_draws_keeps_camera glm assets ecs (fill_camera glm ecs
    (s.call Event.database_reset (fun database => database.reset glm assets)))).2.2.2.2
  simp only at h hk
  rw [hk] at h
  simp only [fill_draws_closed glm assets ecs _ h]
  obtain ⟨h1, h2, h3⟩ := fill_camera_lists glm ecs
    (s.call Event.database_reset (fun database => database.reset glm assets))
  rw [h1, h2, h3]
  exact ⟨rfl, rfl, rfl⟩

/-- Claim C5: after the population step, from any previous database state,
`transforms` and `draws` have the same length and the `i`-th transform is the
model matrix of the `i`-th draw. -/
theorem transforms_aligned_with_draws (glm : Glm F V M) (assets : Assets)
    (ecs : List (Entity F V)) (s : RenderState F V M) :
    (populate glm assets ecs s).database.transforms.length =
      (populate glm assets ecs s).database.draws.length ∧
    (populate glm assets ecs s).database.transforms =
      (populate glm assets ecs s).database.draws.map (fun draw => draw.transform) ∧
    ∀ i : Nat, (populate glm assets ecs s).database.transforms[i]? =
      ((populate glm assets ecs s).database.draws[i]?).map (fun draw => draw.transform) := by
  have key : (populate glm assets ecs s).database.transforms =
      (populate glm assets ecs s).database.draws.map (fun draw => draw.transform) := by
    unfold populate fill_draws
    obtain ⟨h1, h2, _⟩ := fill_camera_lists glm ecs
      (s.call Event.database_reset (fun database => database.reset glm assets))
    have h0 : (fill_camera glm ecs (s.call Event.database_reset
        (fun database => database.reset glm assets))).database.transforms =
        (fill_camera glm ecs (s.call Event.database_reset
        (fun database => database.reset glm assets))).database.draws.map
          (fun draw => draw.transform) := by
      rw [h1, h2]; rfl
    simp only
    split
    · apply foldl_invariant (fun t : RenderState F V M =>
        t.database.transforms = t.database.draws.map (fun draw => draw.transform))
      · intro b a hb; exact hb
      apply foldl_invariant (fun t : RenderState F V M =>
        t.database.transforms = t.database.draws.map (fun draw => draw.transform))
      · intro b a hb
        simp [RenderState.call, RenderDatabase.add_draw, hb]
      apply foldl_invariant (fun t : RenderState F V M =>
        t.database.transforms = t.database.draws.map (fun draw => draw.transform))
      · intro b a hb; exact hb
      exact h0
    · exact h0
  refine ⟨by rw [key, List.length_map], key, ?_⟩
  intro i
  rw [key, List.getElem?_map]

/-- Claim C6: when no entity has both a Transform and a Camera, the camera fields
of the populated database (projection, view, projection_view, camera_position,
environment_map) are the values `reset` gave them and the draw list is empty. -/
theorem no_camera_defaults (glm : Glm F V M) (assets : Assets) (ecs : List (Entity F V))
    (s : RenderState F V M) (h : ∀ e ∈ ecs, e.transform = none ∨ e.camera = none) :
    (populate glm assets ecs s).database.projection =
      (s.database.reset glm assets).projection ∧
    (populate glm assets ecs s).database.view = (s.database.reset glm assets).view ∧
    (populate glm assets ecs s).database.projection_view =
      (s.database.reset glm assets).projection_view ∧
    (populate glm assets ecs s).database.camera_position =
      (s.database.reset glm assets).camera_position ∧
    (populate glm assets ecs s).database.environment_map =
      (s.database.reset glm assets).environment_map ∧
    (populate glm assets ecs s).database.draws = [] := by
  have hc : fill_camera glm ecs
      (s.call Event.database_reset (fun database => database.reset glm assets)) =
      s.call Event.database_reset (fun database => database.reset glm assets) := by
    unfold fill_camera
    rw [view_transform_camera_nil ecs h]
  have hclosed := fill_draws_closed glm assets ecs
    (s.call Event.database_reset (fun database => database.reset glm assets)) (Or.inl rfl)
  unfold populate
  simp only [hc, hclosed]
  exact ⟨rfl, rfl, rfl, rfl, rfl, rfl⟩

theorem render_log_structure (glm : Glm F V M) (assets : Assets) (ecs : List (Entity F V))
    (database : RenderDatabase F V M) :
    ∃ fill : List (Event F V M),
      (∀ e ∈ fill, e.is_population = true) ∧
      (render glm assets ecs database).database =
        (populate glm assets ecs
          { database := database,
            log := [Event.wait_for_available_frame, Event.get_frame_info] }).database ∧
      (render glm assets ecs database).log =
        [Event.wait_for_available_frame, Event.get_frame_info, Event.database_reset] ++ fill ++
        [Event.geometry_build (render glm assets ecs database).database,
         Event.lighting_build
           { output := Attachment.scene_color,
             depth := Attachment.geometry_depth,
             albedo_ao := Attachment.geometry_albedo_ao,
             metallic_roughness := Attachment.geometry_metallic_roughness,
             normal := Attachment.geometry_normal } (render glm assets ecs database).database,
         Event.skybox_build
           { output := Attachment.scene_color,
             depth := Attachment.lighting_resolved_depth }
           (render glm assets ecs database).database,
         Event.tonemap_build
           { input_hdr := Attachment.scene_color,
             output_ldr := Attachment.scene_color_tonemapped }
           (render glm assets ecs database).database,
         Event.imgui_render, Event.imgui_render_draw_data, Event.graph_build,
         Event.render_frame, Event.present_frame] := by
  obtain ⟨fill, h1, h2⟩ := populate_log glm assets ecs
    { database := database,
      log := [Event.wait_for_available_frame, Event.get_frame_info] }
  refine ⟨fill, h2, ?_, ?_⟩
  · simp [render, RenderState.call]
  · simp [render, RenderState.call, h1]

theorem population_hands_no_output (e : Event F V M) (h : e.is_population = true) :
    e.handed_outputs = none := by
  cases e <;> simp_all [Event.is_population, Event.handed_outputs]

theorem filterMap_handed_outputs_fill (fill : List (Event F V M))
    (h : ∀ e ∈ fill, e.is_population = true) :
    fill.filterMap Event.handed_outputs = [] := by
  rw [List.filterMap_eq_nil_iff]
  intro e he
  exact population_hands_no_output e (h e he)

theorem population_steps (fill : List (Event F V M))
    (h : ∀ e ∈ fill, e.is_population = true) :
    fill.filterMap Event.step = List.replicate fill.length Step.populate := by
  induction fill with
  | nil => rfl
  | cons e t ih =>
    have he : e.step = some Step.populate := by
      have := h e (List.mem_cons_self e t)
      cases e <;> simp_all [Event.is_population, Event.step]
    rw [List.filterMap_cons, he, ih (fun x hx => h x (List.mem_cons_of_mem e hx))]
    rfl

/-- Claim C7: one `render` call makes, once each and in this order, the calls
wait-for-frame, (frame info,) reset, the population calls, Geometry build,
Lighting build, Skybox build, Tonemap build, (the ImGui calls,) `graph.build`,
`render_frame` (submit) and `present_frame`; every pass is handed the database
as population left it.  Read as steps: wait, reset, a block of population
calls, then geometry, lighting, skybox, tonemap, finalize, submit, present. -/
theorem render_step_order (glm : Glm F V M) (assets : Assets) (ecs : List (Entity F V))
    (database : RenderDatabase F V M) :
    ∃ fill : List (Event F V M),
      (∀ e ∈ fill, e.is_population = true) ∧
      (render glm assets ecs database).database =
        (populate glm assets ecs
          { database := database,
            log := [Event.wait_for_available_frame, Event.get_frame_info] }).database ∧
      (render glm assets ecs database).log =
        [Event.wait_for_available_frame, Event.get_frame_info, Event.database_reset] ++ fill ++
        [Event.geometry_build (render glm assets ecs database).database,
         Event.lighting_build
           { output := Attachment.scene_color,
             depth := Attachment.geometry_depth,
             albedo_ao := Attachment.geometry_albedo_ao,
             metallic_roughness := Attachment.geometry_metallic_roughness,
             normal := Attachment.geometry_normal } (render glm assets ecs database).database,
         Event.skybox_build
           { output := Attachment.scene_color,
             depth := Attachment.lighting_resolved_depth }
           (render glm assets ecs database).database,
         Event.tonemap_build
           { input_hdr := Attachment.scene_color,
             output_ldr := Attachment.scene_color_tonemapped }
           (render glm assets ecs database).database,
         Event.imgui_render, Event.imgui_render_draw_data, Event.graph_build,
         Event.render_frame, Event.present_frame] ∧
      (render glm assets ecs database).log.filterMap Event.step =
        [Step.wait_for_frame, Step.reset] ++ List.replicate fill.length Step.populate ++
        [Step.geometry, Step.lighting, Step.skybox, Step.tonemap, Step.finalize,
         Step.submit, Step.present] := by
  obtain ⟨fill, h1, h2, h3⟩ := render_log_structure glm assets ecs database
  refine ⟨fill, h1, h2, h3, ?_⟩
  rw [h3, List.filterMap_append, List.filterMap_append, population_steps fill h1]
  rfl

/-- Claim C8, as amended: in every frame `scene_color` is handed as the output of
both the Lighting and the Skybox pass, in that order, `scene_color_tonemapped`
as the output of the Tonemap pass only, and no other attachment is handed as
an output; so every attachment other than `scene_color` has at most one
writer and `scene_color` has two. -/
theorem attachment_writers (glm : Glm F V M) (assets : Assets) (ecs : List (Entity F V))
    (database : RenderDatabase F V M) (a : Attachment) :
    writers (render glm assets ecs database).log a =
      (match a with
        | Attachment.scene_color => [PassKind.lighting, PassKind.skybox]
        | Attachment.scene_color_tonemapped => [PassKind.tonemap]
        | _ => []) ∧
    (writers (render glm assets ecs database).log a).length ≤
      (if a = Attachment.scene_color then 2 else 1) := by
  obtain ⟨fill, h1, _, h3⟩ := render_log_structure glm assets ecs database
  have hw : writers (render glm assets ecs database).log a =
      (match a with
        | Attachment.scene_color => [PassKind.lighting, PassKind.skybox]
        | Attachment.scene_color_tonemapped => [PassKind.tonemap]
        | _ => []) := by
    rw [h3, writers, List.filterMap_append, List.filterMap_append,
      filterMap_handed_outputs_fill fill h1]
    cases a <;> simp [Event.handed_outputs]
  refine ⟨hw, ?_⟩
  rw [hw]
  cases a <;> simp

end Theorems

/-! ## Concrete checks -/

/-- Claim C9: `create_pipeline` declares one vertex binding (binding 0, per
vertex, stride 44 = 11 floats) and four attributes at locations 0..3 on
binding 0 (vec3, vec3, vec3, vec2) at byte offsets 0, 12, 24, 36; each offset
is 4 bytes times the component counts before it, and the last offset plus the
last attribute size is the stride. -/
theorem vertex_layout :
    create_pipeline.vertex_input_bindings =
      [{ binding := 0, stride := 44, inputRate := VertexInputRate.eVertex }] ∧
    44 = 11 * sizeof_float ∧
    create_pipeline.vertex_attributes =
      [{ location := 0, binding := 0, format := Format.eR32G32B32Sfloat, offset := 0 },
       { location := 1, binding := 0, format := Format.eR32G32B32Sfloat, offset := 12 },
       { location := 2, binding := 0, format := Format.eR32G32B32Sfloat, offset := 24 },
       { location := 3, binding := 0, format := Format.eR32G32Sfloat, offset := 36 }] ∧
    create_pipeline.vertex_attributes.map (fun a => a.offset) =
      (List.range create_pipeline.vertex_attributes.length).map
        (packed_offset (create_pipeline.vertex_attributes.map (fun a => a.format))) ∧
    create_pipeline.vertex_attributes.getLast?.map (fun a => a.offset + a.format.size) =
      create_pipeline.vertex_input_bindings.head?.map (fun b => b.stride) := by
  decide

/-- With a ready environment map the example scene fills three draws, their
three model matrices and one light. -/
theorem example_scene_populates :
    (populate example_glm example_assets example_scene
      { database := example_database, log := [] }).database.draws.map (fun d => d.mesh.id)
      = [0, 1, 2] ∧
    (populate example_glm example_assets example_scene
      { database := example_database, log := [] }).database.transforms = [1, 2, 3] ∧
    (populate example_glm example_assets example_scene
      { database := example_database, log := [] }).database.point_lights.length = 1 := by
  decide

/-- Witness for claim C4: a camera on an environment map that is not ready, in
a scene with three mesh renderers and a light, leaves the three lists empty. -/
theorem no_environment_no_draws_witness :
    (example_assets.env_map_ready (populate example_glm example_assets example_scene_unready
      { database := example_database, log := [] }).database.environment_map = false) ∧
    (populate example_glm example_assets example_scene_unready
      { database := example_database, log := [] }).database.draws = [] ∧
    (populate example_glm example_assets example_scene_unready
      { database := example_database, log := [] }).database.transforms = [] ∧
    (populate example_glm example_assets example_scene_unready
      { database := example_database, log := [] }).database.point_lights = [] :=
  ⟨by decide,
   no_environment_no_draws example_glm example_assets example_scene_unready
     { database := example_database, log := [] } (Or.inr (by decide))⟩

/-- Witness for claim C6: a scene of mesh renderers without a camera keeps the
"none" environment map and an empty draw list. -/
theorem no_camera_defaults_witness :
    (∀ e ∈ example_scene_no_camera, e.transform = none ∨ e.camera = none) ∧
    (populate example_glm example_assets example_scene_no_camera
      { database := example_database, log := [] }).database.environment_map = { id := 255 } ∧
    (populate example_glm example_assets example_scene_no_camera
      { database := example_database, log := [] }).database.draws = [] :=
  ⟨by decide,
   (no_camera_defaults example_glm example_assets example_scene_no_camera
     { database := example_database, log := [] } (by decide)).2.2.2.2.1,
   (no_camera_defaults example_glm example_assets example_scene_no_camera
     { database := example_database, log := [] } (by decide)).2.2.2.2.2⟩

/-- Counterexample to claim C8 as stated: `scene_color` is handed as the output
of two passes, Lighting and Skybox. -/
theorem scene_color_has_two_writers :
    writers (render example_glm example_assets example_scene example_database).log
      Attachment.scene_color = [PassKind.lighting, PassKind.skybox] ∧
    ¬ ∀ a : Attachment,
      (writers (render example_glm example_assets example_scene example_database).log a).length
        ≤ 1 := by
  have h : writers (render example_glm example_assets example_scene example_database).log
      Attachment.scene_color = [PassKind.lighting, PassKind.skybox] := by decide
  refine ⟨h, fun hall => ?_⟩
  have := hall Attachment.scene_color
  rw [h] at this
  exact absurd this (by decide)

/-- Counterexample to claim C2 as stated: with three draws and draw 1 not ready
the callback records two draw calls with push constants 0 and 2, so draw call
number 1 is bound to index 2. -/
theorem nth_push_constant_is_not_n :
    (render_frame_callback example_is_ready example_assets_get example_bindings
      PerFrameBuffers.empty example_database 4).returned = true ∧
    push_constant_values (render_frame_callback example_is_ready example_assets_get
      example_bindings PerFrameBuffers.empty example_database 4).cmd_buf = [0, 2] ∧
    ¬ ∀ N v : Nat,
      (push_constant_values (render_frame_callback example_is_ready example_assets_get
        example_bindings PerFrameBuffers.empty example_database 4).cmd_buf)[N]? = some v →
      v = N := by
  have h : push_constant_values (render_frame_callback example_is_ready example_assets_get
      example_bindings PerFrameBuffers.empty example_database 4).cmd_buf = [0, 2] := by decide
  refine ⟨by decide, h, fun hall => ?_⟩
  have := hall 1 2 (by rw [h]; rfl)
  exact absurd this (by decide)

/-- Witness for claim C2: in the three-draw example the push constants are the
indices of the ready draws. -/
theorem push_constant_is_ready_draw_index_witness :
    example_database.draws.length < 2 ^ 32 ∧
    example_database.draws.length < 4 ∧
    push_constant_values (render_frame_callback example_is_ready example_assets_get
      example_bindings PerFrameBuffers.empty example_database 4).cmd_buf =
      (ready_draws example_is_ready example_database.draws).map Prod.fst ∧
    ∃ hv : 2 < example_database.draws.length,
      example_is_ready example_database.draws[2].mesh = true ∧
      ((example_database.draws.take 2).filter (fun d => example_is_ready d.mesh)).length = 1 ∧
      1 ≤ 2 ∧
      (2 = 1 ↔ ∀ d ∈ example_database.draws.take 2, example_is_ready d.mesh = true) :=
  ⟨by decide, by decide,
   (push_constant_is_ready_draw_index example_is_ready example_assets_get example_bindings
      PerFrameBuffers.empty example_database 4 (by decide) (by decide)).1,
   (push_constant_is_ready_draw_index example_is_ready example_assets_get example_bindings
      PerFrameBuffers.empty example_database 4 (by decide) (by decide)).2 1 2 (by decide)⟩

/-- Witness for claim C10: the three-draw example allocates 192 bytes and binds
indices below 3. -/
theorem transform_slots_in_bounds_witness :
    example_database.draws ≠ [] ∧
    example_database.transforms.length = example_database.draws.length ∧
    ∃ post : List (Cmd Nat),
      (render_frame_callback example_is_ready example_assets_get example_bindings
        PerFrameBuffers.empty example_database 4).cmd_buf =
        [Cmd.auto_viewport_scissor, Cmd.get_pipeline "basic_pipeline",
         Cmd.bind_pipeline "basic_pipeline",
         Cmd.allocate_scratch_ssbo (64 * example_database.transforms.length)] ++ post ∧
      (∀ c ∈ post, is_ssbo_allocation c = false) ∧
      (render_frame_callback example_is_ready example_assets_get example_bindings
        PerFrameBuffers.empty example_database 4).per_frame_buffers.transforms
        = { size := 64 * example_database.transforms.length,
            data := example_database.transforms } ∧
      ∀ stage offset size i,
        Cmd.push_constants stage offset size i ∈
          (render_frame_callback example_is_ready example_assets_get example_bindings
            PerFrameBuffers.empty example_database 4).cmd_buf →
        i < example_database.transforms.length ∧
        64 * i + 64 ≤ 64 * example_database.transforms.length :=
  ⟨by decide, by decide,
   transform_slots_in_bounds example_is_ready example_assets_get example_bindings
     PerFrameBuffers.empty example_database 4 (by decide) (by decide)⟩

end Andromeda
